import Mathlib

/-!
Verification of the pdf-invoice-automator ingestion pipeline (src/main.py,
the primary variant of the repository) against its natural-language design.

The embedding models:
  * the field parser `parse_invoice_text` (src/main.py lines 102-117),
    with each regex search implemented as a specialized scanner that is
    faithful to Python `re.search` semantics (leftmost match, alternation
    order, greedy/lazy quantifiers) for the three concrete patterns;
  * the OCR-fallback text extractor `extract_text_with_ocr` (lines 120-139)
    over an abstract document given as a list of pages;
  * the sink header reconciliation of `append_to_sheet` (lines 87-94);
  * the per-file pipeline run `PDFHandler.on_created` (lines 143-166)
    together with the shared state `AppState` (lines 40-56), the sink
    authentication path `get_gspread_client` (lines 62-75), and the control
    surface handlers `get_status` (lines 173-178) and `start_watching`
    (lines 180-199).

Modelling conventions: character classes `\d` and `\s` are taken at their
ASCII meaning (the label vocabulary is ASCII; exotic unicode digits and
foldings are out of model); `IGNORECASE` is ASCII case folding; the
`Total Amount` value, parsed by Python as `float` from a two-decimal
string, is modelled exactly in cents; wall-clock timestamps (log entry
timestamps and the `Processed Time` record field) carry no logical content
and are omitted.
-/

namespace InvoiceApp

/-- Python ASCII whitespace, the characters stripped by `str.strip()` and
matched by `\s` in the source's regexes (ASCII fragment). -/
def isPySpace (c : Char) : Bool :=
  c = ' ' || c = '\t' || c = '\n' || c = '\r' || c = '\x0b' || c = '\x0c'

/-- Strip leading and trailing Python whitespace from a character list. -/
def pyStripL (l : List Char) : List Char :=
  ((l.dropWhile isPySpace).reverse.dropWhile isPySpace).reverse

/-- Python `str.strip()`. -/
def pyStrip (s : String) : String :=
  String.mk (pyStripL s.data)

/-- ASCII lower-casing, the case folding used to model `re.IGNORECASE`
over the ASCII label vocabulary. -/
def lowerA (c : Char) : Char :=
  if 'A' ≤ c && c ≤ 'Z' then Char.ofNat (c.toNat + 32) else c

/-- Case-insensitive test that the first list is a prefix of the second. -/
def ciStarts : List Char → List Char → Bool
  | [], _ => true
  | _ :: _, [] => false
  | a :: as, b :: bs => (lowerA a == lowerA b) && ciStarts as bs

/-- Numeric value of a list of ASCII digits (most significant first). -/
def digitsToNat (l : List Char) : Nat :=
  l.foldl (fun n c => 10 * n + (c.toNat - 48)) 0

/-! ### Field parser (src/main.py lines 102-117) -/

/-- Search for `^(.*?)\n` with `re.MULTILINE`: `^` matches at offset 0, and
the lazy group (in which `.` cannot match a newline) extends to the first
newline, so the search succeeds exactly when the text contains a newline,
capturing the first line. -/
def vendorSearch (l : List Char) : Option (List Char) :=
  if l.contains '\n' then some (l.takeWhile (fun c => c != '\n')) else none

/-- Attempt `[\s:]*\$?([\d,]+\.\d{2})` at the head of `l` (the tail of the
amount pattern after one of its labels). The character sets of the
successive pieces are pairwise disjoint, so the greedy quantifiers need no
backtracking: a `.` can never occur inside a `[\d,]+` run, hence the only
candidate split is at the maximal run. Returns the captured group. -/
def amountTail (l : List Char) : Option (List Char) :=
  let l1 := l.dropWhile (fun c => isPySpace c || c == ':')
  let l2 := match l1 with
    | '$' :: r => r
    | _ => l1
  let ds := l2.takeWhile (fun c => c.isDigit || c == ',')
  if ds.isEmpty then none
  else
    match l2.drop ds.length with
    | '.' :: a :: b :: _ =>
      if a.isDigit && b.isDigit then some (ds ++ '.' :: a :: b :: []) else none
    | _ => none

/-- Attempt `(?:Total|Amount Due|Balance)[\s:]*\$?([\d,]+\.\d{2})` (with
`re.IGNORECASE`) at the head of `l`. The three label alternatives begin
with distinct letters, so trying them with `else if` coincides with the
regex engine's alternation order. -/
def amountAt (l : List Char) : Option (List Char) :=
  if ciStarts "total".data l then amountTail (l.drop 5)
  else if ciStarts "amount due".data l then amountTail (l.drop 10)
  else if ciStarts "balance".data l then amountTail (l.drop 7)
  else none

/-- Leftmost search of the amount pattern, scanning start positions left to
right as `re.search` does. -/
def amountSearch : List Char → Option (List Char)
  | [] => none
  | a :: rest =>
    match amountAt (a :: rest) with
    | some g => some g
    | none => amountSearch rest

/-- Attempt `:?\s*(\d{1,2}/\d{1,2}/\d{2,4})` at the head of `l` (the tail
of the date pattern after the `Date` label). A digit run of length 3 or
more cannot satisfy `\d{1,2}` followed by `/`, since the character after
one or two digits is still a digit; the final `\d{2,4}` is greedy with
nothing after it, so it takes at most four digits of the final run.
Returns the captured group. -/
def dateTail (l : List Char) : Option (List Char) :=
  let l1 := match l with
    | ':' :: r => r
    | _ => l
  let l2 := l1.dropWhile isPySpace
  let d1 := l2.takeWhile Char.isDigit
  if d1.length = 1 || d1.length = 2 then
    match l2.drop d1.length with
    | '/' :: r2 =>
      let d2 := r2.takeWhile Char.isDigit
      if d2.length = 1 || d2.length = 2 then
        match r2.drop d2.length with
        | '/' :: r3 =>
          let d3 := r3.takeWhile Char.isDigit
          if d3.length ≥ 2 then some (d1 ++ '/' :: (d2 ++ '/' :: d3.take 4))
          else none
        | _ => none
      else none
    | _ => none
  else none

/-- Attempt `Date:?\s*(\d{1,2}/\d{1,2}/\d{2,4})` (with `re.IGNORECASE`) at
the head of `l`. -/
def dateAt (l : List Char) : Option (List Char) :=
  if ciStarts "date".data l then dateTail (l.drop 4) else none

/-- Leftmost search of the date pattern. -/
def dateSearch : List Char → Option (List Char)
  | [] => none
  | a :: rest =>
    match dateAt (a :: rest) with
    | some g => some g
    | none => dateSearch rest

/-- Value in cents of a captured amount group `[\d,]+\.\d{2}`, after
`.replace(",", "")`: the group always carries exactly two decimals, so the
fixed-point value is exact. -/
def centsOfGroup (g : List Char) : Nat :=
  let g' := g.filter (fun c => c != ',')
  let ip := g'.takeWhile (fun c => c != '.')
  let fp := (g'.dropWhile (fun c => c != '.')).drop 1
  digitsToNat ip * 100 + digitsToNat fp

/-- The `Vendor` field: first line of the text when the text contains a
newline (stripped), otherwise the sentinel `"N/A"`. -/
def vendorField (text : String) : String :=
  match vendorSearch text.data with
  | some g => String.mk (pyStripL g)
  | none => "N/A"

/-- The `Invoice Date` field: stripped captured date group, or the
sentinel `"N/A"`. -/
def dateField (text : String) : String :=
  match dateSearch text.data with
  | some g => String.mk (pyStripL g)
  | none => "N/A"

/-- The `Total Amount` field in cents: parsed captured group, or the
default `0` (the source's `0.0`). -/
def amountCentsField (text : String) : Nat :=
  match amountSearch text.data with
  | some g => centsOfGroup g
  | none => 0

/-- The record produced by the parser. `Processed Time`, always the
wall-clock time at parse completion in the source, is omitted. -/
structure InvoiceRecord where
  vendor : String
  invoiceDate : String
  totalAmountCents : Nat
deriving DecidableEq, Repr

/-- Embedding of `parse_invoice_text` (src/main.py lines 102-117): three
independent pattern searches with per-field defaults. -/
def parse_invoice_text (text : String) : InvoiceRecord :=
  { vendor := vendorField text
  , invoiceDate := dateField text
  , totalAmountCents := amountCentsField text }

/-- Decidable check that a character list has the shape
`\d{1,2}/\d{1,2}/\d{2,4}` and nothing else. -/
def dateShapeOk (g : List Char) : Bool :=
  let d1 := g.takeWhile Char.isDigit
  let r1 := g.drop d1.length
  let d2 := r1.tail.takeWhile Char.isDigit
  let r2 := r1.tail.drop d2.length
  let d3 := r2.tail.takeWhile Char.isDigit
  (d1.length = 1 || d1.length = 2) && (r1.head? == some '/') &&
    ((d2.length = 1 || d2.length = 2) && (r2.head? == some '/')) &&
    (decide (d3.length ≥ 2) && decide (d3.length ≤ 4) && (r2.tail.drop d3.length).isEmpty)

/-! ### Text extractor (src/main.py lines 120-139) -/

/-- A document page: its native text layer and the text OCR would produce
for its rasterized image. -/
structure Page where
  native : String
  ocr : String
deriving DecidableEq, Repr

/-- Page loop of `extract_text_with_ocr`, carrying the index of the
current page. Returns the collected page texts and the indices of the
pages for which OCR was invoked, both in page order. The per-page INFO
progress log emitted on OCR fallback carries no further state and is
represented by the recorded index. -/
def extractGo : Nat → List Page → List String × List Nat
  | _, [] => ([], [])
  | i, p :: ps =>
    let rest := extractGo (i + 1) ps
    if pyStrip p.native ≠ "" then (pyStrip p.native :: rest.1, rest.2)
    else
      ((if pyStrip p.ocr ≠ "" then pyStrip p.ocr :: rest.1 else rest.1), i :: rest.2)

/-- Embedding of `extract_text_with_ocr` (src/main.py lines 120-139) on a
successfully opened document: per page, the stripped native text when
non-empty, otherwise OCR is invoked and its stripped output is collected
only when non-empty; the collected texts are joined with newlines. The
first component is the returned text, the second the OCR invocations. -/
def extract_text_with_ocr (pages : List Page) : String × List Nat :=
  let r := extractGo 0 pages
  (String.intercalate "\n" r.1, r.2)

/-- The entry a page contributes to the joined text in the source:
stripped native text when non-empty, else stripped OCR text when
non-empty, else nothing. -/
def pageEntry (p : Page) : Option String :=
  if pyStrip p.native ≠ "" then some (pyStrip p.native)
  else if pyStrip p.ocr ≠ "" then some (pyStrip p.ocr)
  else none

/-- Modelled from the spec: the per-page text of section 4.1, which keeps
the trimmed native text when non-empty and otherwise "whatever text
(possibly empty) OCR produced", every page contributing an entry. -/
def specPageText (p : Page) : String :=
  if pyStrip p.native ≠ "" then pyStrip p.native else p.ocr

/-- Modelled from the spec: the extraction result of section 4.1,
concatenating all page texts with newline separators in page order. -/
def spec_extract_text (pages : List Page) : String :=
  String.intercalate "\n" (pages.map specPageText)

/-! ### Sink appender (src/main.py lines 87-94) -/

/-- The remote sheet: its first-row header and its appended rows; a row
cell is `none` where pandas `reindex` left a blank. -/
structure SheetModel where
  header : List String
  rows : List (List (Option String))
deriving DecidableEq, Repr

/-- Pandas `df.reindex(columns=header)` on a single-row frame built from
the record: one cell per header column, holding the record's value for
that field name and blank where the record lacks the column; record
fields absent from the header do not appear. -/
def reindexRow (header : List String) (data : List (String × String)) : List (Option String) :=
  header.map (fun c => data.lookup c)

/-- Embedding of the header-reconciliation core of `append_to_sheet`
(src/main.py lines 87-94): when the sheet has no header row, write the
record's field names as the header followed by the record's values;
otherwise append the record reindexed to the existing header. -/
def append_to_sheet_data (sheet : SheetModel) (data : List (String × String)) : SheetModel :=
  if sheet.header = [] then
    { header := data.map Prod.fst, rows := [data.map (fun kv => some kv.2)] }
  else
    { sheet with rows := sheet.rows ++ [reindexRow sheet.header data] }

/-! ### Shared state and pipeline (src/main.py lines 40-56, 62-99, 143-166) -/

/-- Severity of a log entry. -/
inductive LogLevel where
  | INFO
  | SUCCESS
  | ERROR
deriving DecidableEq, Repr

/-- A log entry; the wall-clock timestamp of the source is omitted. -/
structure LogEntry where
  level : LogLevel
  message : String
deriving DecidableEq, Repr

/-- The shared `AppState` (src/main.py lines 40-56). The watchdog
`Observer` handle is abstracted to whether one is installed. -/
structure AppState where
  is_watching : Bool
  observerSet : Bool
  logs : List LogEntry
  files_processed : Nat
  errors : Nat
  sheet_url : Option String
deriving DecidableEq, Repr

/-- The `AppState.add_log` method (src/main.py lines 49-56): append the
entry and evict the oldest entry when the buffer exceeds 100. -/
def add_log (st : AppState) (lv : LogLevel) (msg : String) : AppState :=
  let logs := st.logs ++ [⟨lv, msg⟩]
  { st with logs := if logs.length > 100 then logs.drop 1 else logs }

/-- State of one pipeline run paired with the list of log entries the run
has emitted so far (the emitted list is instrumentation: entries are
recorded in emission order, unaffected by the buffer's eviction). -/
structure LogCtx where
  st : AppState
  emitted : List LogEntry
deriving Repr

/-- Log through `add_log` and record the entry as emitted. -/
def logWith (c : LogCtx) (lv : LogLevel) (msg : String) : LogCtx :=
  { st := add_log c.st lv msg, emitted := c.emitted ++ [⟨lv, msg⟩] }

/-- Increment the error counter (the handler's `state.stats["errors"] += 1`). -/
def incErrors (c : LogCtx) : LogCtx :=
  { c with st := { c.st with errors := c.st.errors + 1 } }

/-- Outcome environment of one per-file pipeline run: how the external
effects behave for this file. `extraction` is what `extract_text_with_ocr`
does (the message of the exception it raises, or the text it returns);
`credsPresent` is whether `credentials.json` exists; `authError` an
exception raised while authorizing; `sinkWrite` the outcome of the sheet
open/read/write block. -/
structure PipeEnv where
  extraction : Except String String
  credsPresent : Bool
  authError : Option String
  sinkWrite : Except String Unit
deriving Repr

/-- Embedding of `get_gspread_client` (src/main.py lines 62-75): logs an
ERROR and yields no client when the credential file is absent or
authentication raises; yields a client otherwise. -/
def get_gspread_client (env : PipeEnv) (c : LogCtx) : LogCtx × Bool :=
  if env.credsPresent = false then
    (logWith c .ERROR "credentials.json not found. Cannot connect to Google Sheets.", false)
  else
    match env.authError with
    | some e => (logWith c .ERROR s!"Google Sheets authentication failed: {e}", false)
    | none => (c, true)

/-- Embedding of `append_to_sheet` (src/main.py lines 77-99) at the level
of the pipeline run: returns silently when there is no client or no
configured sheet url; otherwise logs INFO, then on write success logs
SUCCESS, and on write failure logs ERROR and re-raises (the second
component is the exception message when the call raises). -/
def append_to_sheet_run (env : PipeEnv) (c : LogCtx) : LogCtx × Option String :=
  let r := get_gspread_client env c
  if r.2 = false ∨ r.1.st.sheet_url = none then (r.1, none)
  else
    let c2 := logWith r.1 .INFO "Opening Google Sheet..."
    match env.sinkWrite with
    | .ok _ => (logWith c2 .SUCCESS "Data successfully written to Google Sheet.", none)
    | .error e => (logWith c2 .ERROR s!"Failed to write to Google Sheet: {e}", some e)

/-- The message of the handler's `ValueError("Empty text extracted")`,
the cause interpolated into the controller's ERROR entry when extraction
yields blank text. -/
def emptyTextCause : String :=
  "Empty text extracted"

/-- Result of one per-file pipeline run: the final shared state, the log
entries the run emitted, and which later stages were attempted. -/
structure RunResult where
  state : AppState
  emitted : List LogEntry
  parseRan : Bool
  sinkRan : Bool
deriving Repr

/-- Embedding of `PDFHandler.on_created` (src/main.py lines 143-166) for a
non-directory event whose path ends in `.pdf`, after the debounce sleep
confirmed the file: log detection; run extraction (whose raise was
preceded by its own ERROR log, line 138); reject blank extracted text;
parse (total, never raises); log SUCCESS (the source message carries the
parsed dict's repr, abbreviated here); append to the sheet; on success
increment `files_processed`, and on any raise increment `errors` and log
the controller's ERROR with the file name and cause. -/
def on_created (env : PipeEnv) (fileName : String) (st0 : AppState) : RunResult :=
  let c := logWith ⟨st0, []⟩ .INFO s!"Detected new file: {fileName}"
  match env.extraction with
  | .error e =>
    let c := logWith c .ERROR s!"Error during PDF processing for {fileName}: {e}"
    let c := incErrors c
    let c := logWith c .ERROR s!"Full processing pipeline failed for {fileName}: {e}"
    ⟨c.st, c.emitted, false, false⟩
  | .ok text =>
    if pyStrip text = "" then
      let c := logWith c .ERROR s!"Could not extract any text from {fileName}."
      let c := incErrors c
      let c := logWith c .ERROR s!"Full processing pipeline failed for {fileName}: {emptyTextCause}"
      ⟨c.st, c.emitted, false, false⟩
    else
      let c := logWith c .INFO s!"Parsing data from {fileName}..."
      let _record := parse_invoice_text text
      let c := logWith c .SUCCESS "Parsed data."
      let r := append_to_sheet_run env c
      match r.2 with
      | some e =>
        let c := incErrors r.1
        let c := logWith c .ERROR s!"Full processing pipeline failed for {fileName}: {e}"
        ⟨c.st, c.emitted, true, true⟩
      | none =>
        ⟨{ r.1.st with files_processed := r.1.st.files_processed + 1 }, r.1.emitted, true, true⟩

/-! ### Control surface (src/main.py lines 173-199) -/

/-- Response body of `GET /status`. -/
structure StatusResp where
  is_watching : Bool
  files_processed : Nat
  errors : Nat
  logs : List LogEntry
deriving DecidableEq, Repr

/-- Embedding of `get_status` (src/main.py lines 173-178): snapshot the
log buffer, clear it, and return the watching flag, counters, and the
snapshot. -/
def get_status (st : AppState) : StatusResp × AppState :=
  (⟨st.is_watching, st.files_processed, st.errors, st.logs⟩, { st with logs := [] })

/-- Result of a control-surface request: a success message or an
`HTTPException` with status code and detail. -/
inductive HttpResult where
  | ok (message : String)
  | httpError (status : Nat) (detail : String)
deriving DecidableEq, Repr

/-- Embedding of `start_watching` (src/main.py lines 180-199).
`dirExists` models `os.path.isdir(request.folder_path)` and
`observerStart` the exception, if any, raised by scheduling/starting the
watchdog observer. The resulting state is returned alongside the HTTP
outcome, since mutations made before a raised `HTTPException` persist. -/
def start_watching (dirExists : Bool) (observerStart : Option String)
    (folderPath sheetUrl : String) (st : AppState) : AppState × HttpResult :=
  if st.is_watching then (st, .httpError 400 "Watcher is already running.")
  else if dirExists = false then (st, .httpError 404 "Directory not found.")
  else
    let st := { st with sheet_url := some sheetUrl }
    let st := add_log st .INFO s!"Starting watcher on directory: {folderPath}"
    let st := { st with observerSet := true }
    match observerStart with
    | none => ({ st with is_watching := true }, .ok "Watcher started successfully.")
    | some e =>
      let st := add_log st .ERROR s!"Failed to start watcher: {e}"
      (st, .httpError 500 e)

/-- Whether a log entry has the ERROR severity. -/
def levelIsError (e : LogEntry) : Bool :=
  match e.level with
  | .ERROR => true
  | _ => false

/-- The ERROR entries of a log list. -/
def errorEntries (l : List LogEntry) : List LogEntry :=
  l.filter levelIsError

/-- A per-file run in which some pipeline stage raises: extraction raises,
extraction returns blank text (the handler's own `ValueError`), or the
sink write block raises after a client and sheet url were available.
A missing credential file is deliberately excluded: on that path the
source returns without raising. -/
def raisingFailure (env : PipeEnv) (st : AppState) : Prop :=
  (∃ e, env.extraction = .error e) ∨
  (∃ t, env.extraction = .ok t ∧ pyStrip t = "") ∨
  (∃ t, env.extraction = .ok t ∧ pyStrip t ≠ "" ∧ env.credsPresent = true ∧
    env.authError = none ∧ st.sheet_url ≠ none ∧ ∃ e, env.sinkWrite = .error e)

/-! ### Concrete fixtures used by the claim theorems -/

/-- The initial `AppState` (src/main.py lines 41-47, 59). -/
def initState : AppState :=
  ⟨false, false, [], 0, 0, none⟩

/-- A state mid-watch with a configured sheet url. -/
def stWatch : AppState :=
  ⟨true, true, [], 3, 1, some "https://sheets.example/abc"⟩

/-- Environment of a run whose sheet write raises (simulated network
failure), everything before it succeeding. -/
def envSinkFail : PipeEnv :=
  ⟨.ok "Invoice text", true, none, .error "network down"⟩

/-- Environment of a run in which `credentials.json` is absent, everything
before the sink succeeding. -/
def envNoCreds : PipeEnv :=
  ⟨.ok "Invoice text", false, none, .ok ()⟩

/-- Scenario A input text. -/
def acmeText : String :=
  "Vendor: Acme Corp\nDate: 01/15/2024\nTotal: $1,234.56"

/-- A text whose date is in the `YYYY-MM-DD` shape. -/
def isoDateText : String :=
  "Date: 2024-01-15"

/-- A sheet with an established two-column header. -/
def sheetEst : SheetModel :=
  ⟨["Vendor", "Total Amount"], []⟩

/-- A record overlapping the established header. -/
def rowA : List (String × String) :=
  [("Vendor", "Acme"), ("Invoice Date", "01/15/2024"), ("Total Amount", "12.00")]

/-- A second record. -/
def rowB : List (String × String) :=
  [("Total Amount", "7.50")]

/-- A one-page document bearing native text. -/
def pagesNative : List Page :=
  [⟨"Hello", ""⟩]

/-- A two-page document with no native text on any page. -/
def pagesBlank : List Page :=
  [⟨" ", "x"⟩, ⟨"", "y"⟩]

/-- A document whose second page has neither native text nor OCR output. -/
def pagesOcrEmpty : List Page :=
  [⟨"A", ""⟩, ⟨"", ""⟩]

/-! ### Helper lemmas -/

/-- Every character kept by `takeWhile` satisfies the predicate. -/
theorem takeWhile_all (p : Char → Bool) (l : List Char) : (l.takeWhile p).all p = true :=
  List.all_eq_true.2 fun _ hx => List.mem_takeWhile_imp hx

/-- Taking while `p` over a block satisfying `p` followed by a failing
character returns exactly the block. -/
theorem takeWhile_append_block (p : Char → Bool) :
    ∀ (a : List Char) (h : Char) (rest : List Char), a.all p = true → p h = false →
      (a ++ h :: rest).takeWhile p = a := by
  intro a
  induction a with
  | nil =>
    intro h rest _ hh
    simp [List.takeWhile_cons, hh]
  | cons x xs ih =>
    intro h rest hall hh
    rw [List.all_cons, Bool.and_eq_true] at hall
    simp [List.takeWhile_cons, hall.1, ih h rest hall.2 hh]

/-- Building block for the date shape: gluing digit blocks of the right
lengths with slashes passes the shape check. -/
theorem dateShapeOk_build (d1 d2 d3 : List Char)
    (h1 : d1.all Char.isDigit = true) (h2 : d2.all Char.isDigit = true)
    (h3 : ∀ x ∈ d3, Char.isDigit x = true)
    (n1 : d1.length = 1 ∨ d1.length = 2) (n2 : d2.length = 1 ∨ d2.length = 2)
    (n3 : 2 ≤ d3.length) (n4 : d3.length ≤ 4) :
    dateShapeOk (d1 ++ '/' :: (d2 ++ '/' :: d3)) = true := by
  have hdig : Char.isDigit '/' = false := by decide
  simp only [dateShapeOk]
  rw [takeWhile_append_block _ _ _ _ h1 hdig, List.drop_left, List.tail_cons]
  rw [takeWhile_append_block _ _ _ _ h2 hdig, List.drop_left, List.tail_cons]
  rw [List.takeWhile_eq_self_iff.2 h3]
  simp only [List.head?_cons, List.drop_length, List.isEmpty_nil, Bool.and_true,
    Bool.and_eq_true, beq_self_eq_true, decide_eq_true_eq, and_true]
  exact ⟨⟨by rcases n1 with h | h <;> simp [h], by rcases n2 with h | h <;> simp [h]⟩,
    n3, n4⟩

/-- A successful `dateTail` capture has the `\d{1,2}/\d{1,2}/\d{2,4}`
shape. -/
theorem dateTail_shape (l g : List Char) (h : dateTail l = some g) : dateShapeOk g = true := by
  simp only [dateTail] at h
  split at h
  case isFalse => exact absurd h (by simp)
  case isTrue hd1 =>
    split at h
    case h_2 => exact absurd h (by simp)
    case h_1 r2 heq =>
      split at h
      case isFalse => exact absurd h (by simp)
      case isTrue hd2 =>
        split at h
        case h_2 => exact absurd h (by simp)
        case h_1 r3 heq3 =>
          split at h
          case isFalse => exact absurd h (by simp)
          case isTrue hd3 =>
            rw [Option.some_inj] at h
            subst h
            rw [Bool.or_eq_true, decide_eq_true_eq, decide_eq_true_eq] at hd1 hd2
            refine dateShapeOk_build _ _ _ (takeWhile_all _ _) (takeWhile_all _ _)
              (fun x hx => List.mem_takeWhile_imp (List.mem_of_mem_take hx)) hd1 hd2 ?_ ?_
            · rw [List.length_take]; omega
            · rw [List.length_take]; omega

/-- Every group found by the date search was captured by `dateTail` at
some suffix. -/
theorem dateSearch_exists_tail : ∀ (l g : List Char), dateSearch l = some g →
    ∃ l2, dateTail l2 = some g := by
  intro l
  induction l with
  | nil => intro g h; simp [dateSearch] at h
  | cons a rest ih =>
    intro g h
    rw [dateSearch] at h
    cases hd : dateAt (a :: rest) with
    | some g2 =>
      rw [hd] at h
      rw [Option.some_inj] at h
      subst h
      rw [dateAt] at hd
      split at hd
      · exact ⟨(a :: rest).drop 4, hd⟩
      · exact absurd hd (by simp)
    | none =>
      rw [hd] at h
      exact ih g h

/-- The header of a sheet with an established header is unchanged by any
sequence of appends. -/
theorem foldl_append_header : ∀ (datas : List (List (String × String))) (sheet : SheetModel),
    sheet.header ≠ [] → (datas.foldl append_to_sheet_data sheet).header = sheet.header := by
  intro datas
  induction datas with
  | nil => intro sheet _; rfl
  | cons d ds ih =>
    intro sheet h
    have h1 : (append_to_sheet_data sheet d).header = sheet.header := by
      simp [append_to_sheet_data, h]
    rw [List.foldl_cons, ih _ (by rw [h1]; exact h), h1]

/-- Every index recorded as an OCR invocation by the page loop points at a
page whose stripped native text is empty, offset by the loop's starting
index. -/
theorem extractGo_ocr_mem : ∀ (ps : List Page) (k i : Nat), i ∈ (extractGo k ps).2 →
    ∃ j p, ps[j]? = some p ∧ i = k + j ∧ pyStrip p.native = "" := by
  intro ps
  induction ps with
  | nil => intro k i h; simp [extractGo] at h
  | cons p ps ih =>
    intro k i h
    by_cases hn : pyStrip p.native = ""
    · simp only [extractGo, hn, ne_eq, not_true_eq_false, if_false] at h
      rcases List.mem_cons.1 h with h | h
      · exact ⟨0, p, by simp, by omega, hn⟩
      · obtain ⟨j, q, hj, hij, hs⟩ := ih (k + 1) i h
        exact ⟨j + 1, q, by simpa using hj, by omega, hs⟩
    · simp only [extractGo, hn, ne_eq, not_false_eq_true, if_true] at h
      obtain ⟨j, q, hj, hij, hs⟩ := ih (k + 1) i h
      exact ⟨j + 1, q, by simpa using hj, by omega, hs⟩

/-- When every page's stripped native text is empty, the page loop records
one OCR invocation per page, in page order. -/
theorem extractGo_all_blank : ∀ (ps : List Page) (k : Nat),
    (∀ p ∈ ps, pyStrip p.native = "") → (extractGo k ps).2 = List.range' k ps.length := by
  intro ps
  induction ps with
  | nil => intro k _; simp [extractGo, List.range']
  | cons p ps ih =>
    intro k h
    have hp : pyStrip p.native = "" := h p (List.mem_cons_self p ps)
    have htail := ih (k + 1) (fun q hq => h q (List.mem_cons_of_mem p hq))
    simp only [extractGo, hp, ne_eq, not_true_eq_false, if_false, List.length_cons,
      List.range'_succ]
    rw [htail]

/-- The page texts collected by the loop are the `pageEntry` results of
the pages, independently of the loop's starting index. -/
theorem extractGo_texts : ∀ (ps : List Page) (k : Nat),
    (extractGo k ps).1 = ps.filterMap pageEntry := by
  intro ps
  induction ps with
  | nil => intro k; simp [extractGo]
  | cons p ps ih =>
    intro k
    by_cases hn : pyStrip p.native = ""
    · by_cases ho : pyStrip p.ocr = ""
      · simp [extractGo, pageEntry, hn, ho, ih (k + 1)]
      · simp [extractGo, pageEntry, hn, ho, ih (k + 1)]
    · simp [extractGo, pageEntry, hn, ih (k + 1)]

/-! ### Claim theorems -/

/-- C1: the field parser is total: for every input string, including the
empty string, `parse_invoice_text` returns a record built from three
independent per-field extractions; an unmatched amount yields the default
0 cents (the source's `0.0`) and unmatched vendor/date yield the sentinel
`"N/A"`. -/
theorem C1_parser_total (text : String) :
    parse_invoice_text text =
      ⟨vendorField text, dateField text, amountCentsField text⟩ ∧
    (vendorSearch text.data = none → (parse_invoice_text text).vendor = "N/A") ∧
    (dateSearch text.data = none → (parse_invoice_text text).invoiceDate = "N/A") ∧
    (amountSearch text.data = none → (parse_invoice_text text).totalAmountCents = 0) := by
  refine ⟨rfl, ?_, ?_, ?_⟩ <;> intro h <;>
    simp [parse_invoice_text, vendorField, dateField, amountCentsField, h]

/-- Witness for C1 at the empty string: no pattern matches, and the parser
returns the sentinel record. -/
theorem C1_parser_total_witness :
    vendorSearch "".data = none ∧ dateSearch "".data = none ∧ amountSearch "".data = none ∧
    (parse_invoice_text "").vendor = "N/A" ∧ (parse_invoice_text "").invoiceDate = "N/A" ∧
    (parse_invoice_text "").totalAmountCents = 0 :=
  ⟨by decide, by decide, by decide,
   (C1_parser_total "").2.1 (by decide),
   (C1_parser_total "").2.2.1 (by decide),
   (C1_parser_total "").2.2.2 (by decide)⟩

/-- C2 counterexample: on the Scenario A text the vendor field is the
entire first line `"Vendor: Acme Corp"` (the first-line heuristic keeps
the label), not `"Acme Corp"` as the claim states. -/
theorem C2_scenarioA_counterexample :
    (parse_invoice_text acmeText).vendor = "Vendor: Acme Corp" ∧
    (parse_invoice_text acmeText).vendor ≠ "Acme Corp" := by
  decide

/-- C2 amended: on the Scenario A text the parser returns vendor
`"Vendor: Acme Corp"`, date `"01/15/2024"`, and amount 1234.56 (123456
cents). -/
theorem C2_scenarioA_amended :
    parse_invoice_text acmeText = ⟨"Vendor: Acme Corp", "01/15/2024", 123456⟩ := by
  decide

/-- C3 counterexample: when the sink write raises (Scenario E), the run
records TWO error log entries — one from the failing stage and one from
the controller — not exactly one; error counter +1 and processed counter
unchanged do hold. -/
theorem C3_stage_failure_counterexample :
    errorEntries (on_created envSinkFail "inv.pdf" stWatch).emitted =
      [⟨.ERROR, "Failed to write to Google Sheet: network down"⟩,
       ⟨.ERROR, "Full processing pipeline failed for inv.pdf: network down"⟩] ∧
    (errorEntries (on_created envSinkFail "inv.pdf" stWatch).emitted).length ≠ 1 ∧
    (on_created envSinkFail "inv.pdf" stWatch).state.errors = stWatch.errors + 1 ∧
    (on_created envSinkFail "inv.pdf" stWatch).state.files_processed =
      stWatch.files_processed := by
  decide

set_option maxHeartbeats 1600000 in
/-- C3 amended: for every per-file run in which a stage raises
(extraction failure, blank extracted text, or sink write failure), the
error counter increments by 1, the processed counter is unchanged, no
later stage is attempted after a failed extraction, and exactly two ERROR
entries are recorded, the last being the controller's entry carrying the
file name and failure cause. -/
theorem C3_stage_failure_amended (env : PipeEnv) (fileName : String) (st : AppState)
    (h : raisingFailure env st) :
    (errorEntries (on_created env fileName st).emitted).length = 2 ∧
    (on_created env fileName st).state.errors = st.errors + 1 ∧
    (on_created env fileName st).state.files_processed = st.files_processed ∧
    (∀ e, env.extraction = .error e →
      (on_created env fileName st).parseRan = false ∧
      (on_created env fileName st).sinkRan = false) ∧
    (∃ cause : String, (on_created env fileName st).emitted.getLast? =
      some ⟨.ERROR, s!"Full processing pipeline failed for {fileName}: {cause}"⟩) := by
  rcases h with ⟨e, he⟩ | ⟨t, ht, hstrip⟩ | ⟨t, ht, hstrip, hc, ha, hu, e, hw⟩
  · refine ⟨?_, ?_, ?_, ?_, ⟨e, ?_⟩⟩ <;>
      simp [on_created, he, errorEntries, levelIsError, logWith, incErrors, add_log]
  · refine ⟨?_, ?_, ?_, ?_, ⟨emptyTextCause, ?_⟩⟩ <;>
      simp [on_created, ht, hstrip, errorEntries, levelIsError, logWith, incErrors, add_log]
  · rcases Option.eq_none_or_eq_some st.sheet_url with hu2 | ⟨u, hu2⟩
    · exact absurd hu2 hu
    · refine ⟨?_, ?_, ?_, ?_, ⟨e, ?_⟩⟩ <;>
        simp [on_created, ht, hstrip, append_to_sheet_run, get_gspread_client, hc, ha,
          hu2, hw, errorEntries, levelIsError, logWith, incErrors, add_log]

/-- Witness for C3 amended at the concrete sink-failure run. -/
theorem C3_stage_failure_witness :
    raisingFailure envSinkFail stWatch ∧
    ((errorEntries (on_created envSinkFail "inv.pdf" stWatch).emitted).length = 2 ∧
     (on_created envSinkFail "inv.pdf" stWatch).state.errors = stWatch.errors + 1 ∧
     (on_created envSinkFail "inv.pdf" stWatch).state.files_processed =
       stWatch.files_processed ∧
     (∀ e, envSinkFail.extraction = .error e →
       (on_created envSinkFail "inv.pdf" stWatch).parseRan = false ∧
       (on_created envSinkFail "inv.pdf" stWatch).sinkRan = false) ∧
     (∃ cause : String, (on_created envSinkFail "inv.pdf" stWatch).emitted.getLast? =
       some ⟨.ERROR, s!"Full processing pipeline failed for inv.pdf: {cause}"⟩)) := by
  have h : raisingFailure envSinkFail stWatch :=
    Or.inr (Or.inr ⟨"Invoice text", rfl, by decide, rfl, rfl, by decide, "network down", rfl⟩)
  exact ⟨h, C3_stage_failure_amended envSinkFail "inv.pdf" stWatch h⟩

/-- C4: against a sheet with an established header, every append keeps the
header's column order and appends the record reindexed to that order,
dropping record fields absent from the header and leaving header columns
the record lacks blank; any number of appends never changes the header. -/
theorem C4_header_reconciliation (sheet : SheetModel) (h : sheet.header ≠ []) :
    (∀ data, (append_to_sheet_data sheet data).header = sheet.header ∧
      (append_to_sheet_data sheet data).rows =
        sheet.rows ++ [reindexRow sheet.header data] ∧
      ∀ i : Nat, (reindexRow sheet.header data)[i]? =
        (sheet.header[i]?).map fun c => data.lookup c) ∧
    (∀ datas : List (List (String × String)),
      (datas.foldl append_to_sheet_data sheet).header = sheet.header) := by
  refine ⟨fun data => ⟨?_, ?_, fun i => ?_⟩, fun datas => foldl_append_header datas sheet h⟩
  · simp [append_to_sheet_data, h]
  · simp [append_to_sheet_data, h]
  · simp [reindexRow]

/-- Witness for C4 at a concrete two-column sheet and two records. -/
theorem C4_header_reconciliation_witness :
    sheetEst.header ≠ [] ∧
    (append_to_sheet_data sheetEst rowA).header = sheetEst.header ∧
    (append_to_sheet_data sheetEst rowA).rows =
      sheetEst.rows ++ [reindexRow sheetEst.header rowA] ∧
    ([rowA, rowB].foldl append_to_sheet_data sheetEst).header = sheetEst.header := by
  have h : sheetEst.header ≠ [] := by decide
  exact ⟨h, ((C4_header_reconciliation sheetEst h).1 rowA).1,
    ((C4_header_reconciliation sheetEst h).1 rowA).2.1,
    (C4_header_reconciliation sheetEst h).2 [rowA, rowB]⟩

/-- C5: extraction never invokes OCR on a page whose native text is
non-empty after trimming, and when every page lacks native text OCR is
invoked exactly once per page, in page order. -/
theorem C5_ocr_policy (pages : List Page) :
    (∀ i : Nat, ∀ hi : i < pages.length,
      pyStrip (pages.get ⟨i, hi⟩).native ≠ "" → i ∉ (extract_text_with_ocr pages).2) ∧
    ((∀ p ∈ pages, pyStrip p.native = "") →
      (extract_text_with_ocr pages).2 = List.range pages.length) := by
  constructor
  · intro i hi hne hmem
    obtain ⟨j, p, hj, hij, hs⟩ :=
      extractGo_ocr_mem pages 0 i (by simpa [extract_text_with_ocr] using hmem)
    have hji : j = i := by omega
    subst hji
    rw [List.getElem?_eq_getElem hi] at hj
    rw [Option.some_inj] at hj
    subst hj
    exact hne (by simpa [List.get_eq_getElem] using hs)
  · intro hall
    have := extractGo_all_blank pages 0 hall
    simp [extract_text_with_ocr, this, List.range_eq_range']

/-- Witness for C5: a native-text page is never OCRed, and an all-blank
document is OCRed once per page in order. -/
theorem C5_ocr_policy_witness :
    (pyStrip (pagesNative.get ⟨0, by decide⟩).native ≠ "" ∧
      0 ∉ (extract_text_with_ocr pagesNative).2) ∧
    ((∀ p ∈ pagesBlank, pyStrip p.native = "") ∧
      (extract_text_with_ocr pagesBlank).2 = List.range pagesBlank.length) :=
  ⟨⟨by decide, (C5_ocr_policy pagesNative).1 0 (by decide) (by decide)⟩,
   ⟨by decide, (C5_ocr_policy pagesBlank).2 (by decide)⟩⟩

/-- C6 counterexample: a page with neither native text nor OCR output
contributes no entry to the concatenation — the code returns `"A"` for a
two-page document whose second page is blank, while the spec's
concatenation (every page contributes) yields `"A\n"`. -/
theorem C6_page_concat_counterexample :
    (extract_text_with_ocr pagesOcrEmpty).1 = "A" ∧
    spec_extract_text pagesOcrEmpty = "A\n" ∧
    (extract_text_with_ocr pagesOcrEmpty).1 ≠ spec_extract_text pagesOcrEmpty := by
  decide

/-- C6 amended: extraction joins with newlines, in page order, the
entries of exactly those pages contributing one — trimmed native text
when non-empty, else trimmed OCR text when non-empty; pages whose OCR
output trims to empty contribute no entry. -/
theorem C6_page_concat_amended (pages : List Page) :
    (extract_text_with_ocr pages).1 =
      String.intercalate "\n" (pages.filterMap pageEntry) := by
  simp [extract_text_with_ocr, extractGo_texts]

/-- C7: evaluation of the code's actual behavior when `credentials.json`
is absent: the ERROR is logged, but the run is counted as processed and
the error counter is unchanged — contradicting the claim (and the spec's
error taxonomy), which demands the run terminate as an error. -/
theorem C7_missing_credentials_behavior :
    (on_created envNoCreds "inv.pdf" stWatch).state.files_processed =
      stWatch.files_processed + 1 ∧
    (on_created envNoCreds "inv.pdf" stWatch).state.errors = stWatch.errors ∧
    errorEntries (on_created envNoCreds "inv.pdf" stWatch).emitted =
      [⟨.ERROR, "credentials.json not found. Cannot connect to Google Sheets."⟩] := by
  decide

/-- C8 counterexample: a `YYYY-MM-DD` date after a `Date` label is NOT
recognized — the parser yields the sentinel. -/
theorem C8_date_shapes_counterexample :
    (parse_invoice_text isoDateText).invoiceDate = "N/A" ∧
    ("N/A" : String) ≠ "2024-01-15" := by
  decide

/-- C8 amended: the date field is the text following a case-insensitive
`Date` label (optional colon) exactly when it matches the
`\d{1,2}/\d{1,2}/\d{2,4}` slash shape — the only recognized shape — and
is the sentinel `"N/A"` when no such match exists. -/
theorem C8_date_shapes_amended (text : String) :
    (dateSearch text.data = none → (parse_invoice_text text).invoiceDate = "N/A") ∧
    (∀ g, dateSearch text.data = some g →
      dateShapeOk g = true ∧
      (parse_invoice_text text).invoiceDate = String.mk (pyStripL g)) := by
  constructor
  · intro h
    simp [parse_invoice_text, dateField, h]
  · intro g h
    obtain ⟨l2, hl2⟩ := dateSearch_exists_tail text.data g h
    exact ⟨dateTail_shape l2 g hl2, by simp [parse_invoice_text, dateField, h]⟩

/-- Witness for C8 amended at a concrete slash-shaped date. -/
theorem C8_date_shapes_witness :
    dateSearch "Date: 01/15/2024".data = some "01/15/2024".data ∧
    dateShapeOk "01/15/2024".data = true ∧
    (parse_invoice_text "Date: 01/15/2024").invoiceDate =
      String.mk (pyStripL "01/15/2024".data) :=
  ⟨by decide,
   ((C8_date_shapes_amended "Date: 01/15/2024").2 "01/15/2024".data (by decide)).1,
   ((C8_date_shapes_amended "Date: 01/15/2024").2 "01/15/2024".data (by decide)).2⟩

/-- C9 counterexample: starting a watch on a non-existent directory fails
with status 404, not the claimed 400. -/
theorem C9_start_watch_counterexample :
    (start_watching false none "/missing/dir" "https://sheets.example/abc" initState).2 =
      .httpError 404 "Directory not found." ∧
    (404 : Nat) ≠ 400 := by
  decide

/-- C9 amended: when no watch is active, a start-watching request naming
a non-existent directory fails with status 404 and detail
`"Directory not found."`, and the state is entirely unchanged — no
session is created. -/
theorem C9_start_watch_amended (observerStart : Option String)
    (folderPath sheetUrl : String) (st : AppState) (h : st.is_watching = false) :
    start_watching false observerStart folderPath sheetUrl st =
      (st, .httpError 404 "Directory not found.") := by
  simp [start_watching, h]

/-- Witness for C9 amended at the initial state. -/
theorem C9_start_watch_witness :
    initState.is_watching = false ∧
    start_watching false none "/missing/dir" "https://sheets.example/abc" initState =
      (initState, .httpError 404 "Directory not found.") :=
  ⟨by decide,
   C9_start_watch_amended none "/missing/dir" "https://sheets.example/abc" initState
     (by decide)⟩

/-- C10: every status read drains the log buffer: the response carries the
accumulated logs, the buffer is left empty (so an immediate second read
returns no logs — each entry is delivered in at most one response), and
the counters and the watching flag are unchanged by the read. -/
theorem C10_status_drains (st : AppState) :
    (get_status st).1.logs = st.logs ∧
    (get_status st).1.is_watching = st.is_watching ∧
    (get_status st).1.files_processed = st.files_processed ∧
    (get_status st).1.errors = st.errors ∧
    (get_status st).2 = { st with logs := [] } ∧
    (get_status ((get_status st).2)).1.logs = [] :=
  ⟨rfl, rfl, rfl, rfl, rfl, rfl⟩

end InvoiceApp
